import Mathlib

/-
Verification of the order/payment-session lifecycle of the
komugybynarumii storefront.

The embedding models the client-side orchestration code:
- `fetchOrder`, `onFileChange`, `uploadProof` from the active (later)
  variant of the Payment page (the unnamed source file whose commented-out
  first half is the superseded `order_confirmed` variant);
- `handleUploadProof`, `handleFileChange` behaviour of the superseded
  Payment page variant where it differs (kept as `handleUploadProof`);
- `handleSubmit` from `src/components/Checkout.tsx`.

The external Supabase services (order row store, blob storage, email edge
function) are modelled by explicit state (`SysState`) plus per-call outcome
parameters (`CallOutcome`): `ok` is a resolved call that succeeded,
`errReported` is a resolved call whose result carries an error object
(supabase-js does not throw in this case), `thrown` is a rejected promise
(caught by the surrounding try/catch).  Wall-clock time is epoch
milliseconds as a `Nat`.
-/

namespace Komugy

/-- Payment method, the TS union of `cash` and `online` in the checkout form. -/
inductive PaymentMethod where
  | cash
  | online
deriving DecidableEq

/-- Payment status values the program ever writes: `pending` at creation
(`Checkout.handleSubmit`) and `paid` in `uploadProof`. -/
inductive PaymentStatus where
  | pending
  | paid
deriving DecidableEq

/-- Outcome of one call into an external service (supabase row store, blob
storage, or the email edge function): resolved without error, resolved with
an error object in the result, or a rejected promise. -/
inductive CallOutcome where
  | ok
  | errReported
  | thrown
deriving DecidableEq

/-- Metadata of a client-selected file; `mime` models the JS `file.type`. -/
structure FileMeta where
  name : String
  mime : String
  size : Nat
deriving DecidableEq

/-- One row of the `orders` table, the union of the fields the two Payment
page variants and Checkout read or write. -/
structure Order where
  id : Nat
  order_token : String
  name : String
  email : String
  phone : String
  address : String
  payment_method : PaymentMethod
  payment_status : PaymentStatus
  payment_expires_at : Nat
  payment_proof_url : Option String
  payment_proof_submitted_at : Option Nat
  order_confirmed : Bool
  confirmed_at : Option Nat
deriving DecidableEq

/-- One row of the `order_items` table written by `Checkout.handleSubmit`. -/
structure OrderItem where
  order_id : Nat
  product_name : String
  price : Nat
  quantity : Nat
deriving DecidableEq

/-- One cart line handed to the checkout component. -/
structure CartItem where
  name : String
  price : Nat
  quantity : Nat
deriving DecidableEq

/-- The buyer-supplied checkout form data. -/
structure Draft where
  name : String
  email : String
  phone : String
  address : String
  paymentMethod : PaymentMethod
deriving DecidableEq

/-- State of the external services: the `orders` table, the stored blob
paths of the `payment-proofs` bucket, the `order_items` table, and the
number of invocations of the `send-order-emails` notification function. -/
structure SysState where
  orders : List Order
  blobs : List String
  orderItems : List OrderItem
  emailsSent : Nat
deriving DecidableEq

/-- Result of the Payment page `fetchOrder` effect: either the expired
screen or the session view rendered from the fetched row. -/
inductive ResolveResult where
  | Expired
  | SessionView (order : Order)
deriving DecidableEq

/-- Result of the file-input change handler: the file becomes the selected
file, or an error message is shown. -/
inductive FileCheck where
  | Accepted
  | InvalidFile (msg : String)
deriving DecidableEq

/-- Client-visible outcome of a proof-upload handler: the guard returned
early, the success state was shown, or the upload error message was set. -/
inductive UploadResult where
  | noop
  | success
  | errorShown
deriving DecidableEq

/-- Client-visible outcome of `Checkout.handleSubmit`. -/
inductive CheckoutResult where
  | errorMsg (msg : String)
  | placedCash
  | navigatedToPayment (token : String)
deriving DecidableEq

/-- Models the supabase orders select filtered by `order_token` with
`maybeSingle`: the first row whose token matches, if any. -/
def findByToken (store : List Order) (token : String) : Option Order :=
  store.find? (fun o => o.order_token = token)

/-- Models the supabase orders update filtered by `id`: the mutation is
applied to every row whose `id` matches and no other row. -/
def updateById (store : List Order) (id : Nat) (f : Order → Order) : List Order :=
  store.map (fun o => if o.id = id then f o else o)

/-- Models JS `String.prototype.startsWith`: the second string is an
initial segment of the first (computable by structural recursion on the
character lists). -/
def strStarts (s pre : String) : Bool :=
  s.data.take pre.data.length == pre.data

/-- Characters after the last dot of the scanned list (the accumulator is
reset at every dot); the whole input when no dot occurs. -/
def extAfterDot : List Char → List Char → List Char
  | [], acc => acc.reverse
  | c :: cs, acc =>
    if c = '.' then extAfterDot cs [] else extAfterDot cs (c :: acc)

/-- Models JS `name.split(dot).pop()`: the segment after the last dot, or
the whole name when it contains none. -/
def fileExt (name : String) : String :=
  String.mk (extAfterDot name.data [])

/-- The storage key built in both upload handlers:
`payment-proofs/` + order token + `_` + `Date.now()` + `.` + extension. -/
def proofPath (ord : Order) (nowMs : Nat) (file : FileMeta) : String :=
  "payment-proofs/" ++ ord.order_token ++ "_" ++ toString nowMs ++ "." ++ fileExt file.name

/-- Models supabase storage `getPublicUrl`, a deterministic function of the
storage path (the host part is abbreviated). -/
def publicUrl (path : String) : String :=
  "public/" ++ path

/-- The row mutation issued by the active `uploadProof`: sets the proof
field pair and `payment_status = paid`. -/
def paidMutation (url : String) (nowMs : Nat) (o : Order) : Order :=
  { o with payment_proof_url := some url,
           payment_proof_submitted_at := some nowMs,
           payment_status := PaymentStatus.paid }

/-- The row mutation issued by the superseded `handleUploadProof`: sets the
proof field pair, `order_confirmed = true` and `confirmed_at`; it does not
touch `payment_status`. -/
def confirmMutation (url : String) (nowMs : Nat) (o : Order) : Order :=
  { o with payment_proof_url := some url,
           payment_proof_submitted_at := some nowMs,
           order_confirmed := true,
           confirmed_at := some nowMs }

/-- The Payment page `fetchOrder` effect.  `tokenInput` is the token taken
from the `ref` query parameter or the local-storage cache, `none` when both
are absent.  A missing token, a failed or empty lookup, or a current time
strictly past `payment_expires_at` all set the expired screen; otherwise the
fetched row is rendered. -/
def fetchOrder (tokenInput : Option String) (store : List Order) (now : Nat) :
    ResolveResult :=
  match tokenInput with
  | none => ResolveResult.Expired
  | some token =>
    match findByToken store token with
    | none => ResolveResult.Expired
    | some data =>
      if data.payment_expires_at < now then ResolveResult.Expired
      else ResolveResult.SessionView data

/-- The active Payment page file-input handler `onFileChange`: a non-image
MIME type or a size above 5 MiB sets an error message and is not selected. -/
def onFileChange (file : FileMeta) : FileCheck :=
  if ! strStarts file.mime "image/" then
    FileCheck.InvalidFile "Only image files allowed"
  else if file.size > 5 * 1024 * 1024 then
    FileCheck.InvalidFile "Max file size is 5MB"
  else
    FileCheck.Accepted

/-- Effect of `onFileChange` on the `selectedFile` state: an accepted file
replaces the selection, a rejected file leaves it unchanged. -/
def selectAfterChange (prev : Option FileMeta) (file : FileMeta) : Option FileMeta :=
  match onFileChange file with
  | FileCheck.Accepted => some file
  | FileCheck.InvalidFile _ => prev

/-- The active Payment page `uploadProof` handler.  The guard returns early
without a selected file or fetched order.  The storage upload result is
discarded (a reported storage error does not abort), the order-row update is
filtered only by `id` and its result is discarded too, and the email edge
function is invoked and awaited on every pass; any rejected promise falls
into the catch branch, which only sets the error message. -/
def uploadProof (selectedFile : Option FileMeta) (order : Option Order)
    (nowMs : Nat) (uploadOutcome updateOutcome emailOutcome : CallOutcome)
    (st : SysState) : SysState × UploadResult :=
  match selectedFile, order with
  | none, _ => (st, UploadResult.noop)
  | some _, none => (st, UploadResult.noop)
  | some file, some ord =>
    let path := proofPath ord nowMs file
    if uploadOutcome = CallOutcome.thrown then
      (st, UploadResult.errorShown)
    else
      let st1 := if uploadOutcome = CallOutcome.ok then
          { st with blobs := st.blobs ++ [path] }
        else st
      let url := publicUrl path
      if updateOutcome = CallOutcome.thrown then
        (st1, UploadResult.errorShown)
      else
        let st2 := if updateOutcome = CallOutcome.ok then
            { st1 with orders := updateById st1.orders ord.id (paidMutation url nowMs) }
          else st1
        let st3 := { st2 with emailsSent := st2.emailsSent + 1 }
        if emailOutcome = CallOutcome.thrown then
          (st3, UploadResult.errorShown)
        else
          (st3, UploadResult.success)

/-- The superseded Payment page `handleUploadProof` handler.  Unlike the
active variant it checks the upload result and the update result (throwing
into the catch branch on a reported error) and sends no email. -/
def handleUploadProof (selectedFile : Option FileMeta) (order : Option Order)
    (nowMs : Nat) (uploadOutcome updateOutcome : CallOutcome)
    (st : SysState) : SysState × UploadResult :=
  match selectedFile, order with
  | none, _ => (st, UploadResult.noop)
  | some _, none => (st, UploadResult.noop)
  | some file, some ord =>
    let path := proofPath ord nowMs file
    match uploadOutcome with
    | CallOutcome.ok =>
      let st1 := { st with blobs := st.blobs ++ [path] }
      let url := publicUrl path
      match updateOutcome with
      | CallOutcome.ok =>
        (⟨updateById st1.orders ord.id (confirmMutation url nowMs),
          st1.blobs, st1.orderItems, st1.emailsSent⟩, UploadResult.success)
      | _ => (st1, UploadResult.errorShown)
    | _ => (st, UploadResult.errorShown)

/-- The order row inserted by `Checkout.handleSubmit`: the buyer fields,
the chosen method, `payment_status = pending`, and a deadline five
minutes after the current time. -/
def mkNewOrder (draft : Draft) (nowMs : Nat) (newId : Nat) (newToken : String) :
    Order :=
  { id := newId, order_token := newToken,
    name := draft.name, email := draft.email,
    phone := draft.phone, address := draft.address,
    payment_method := draft.paymentMethod,
    payment_status := PaymentStatus.pending,
    payment_expires_at := nowMs + 5 * 60 * 1000,
    payment_proof_url := none, payment_proof_submitted_at := none,
    order_confirmed := false, confirmed_at := none }

/-- `Checkout.handleSubmit`.  On a successful order insert and items insert
the cash path fires the notification (its promise failure is swallowed by
`.catch(console.error)`, so `emailOutcome` cannot influence the result) and
shows the placed modal, while the online path stores the token and
navigates to the payment page without any notification. -/
def handleSubmit (draft : Draft) (cart : List CartItem)
    (nowMs : Nat) (newId : Nat) (newToken : String)
    (insertOutcome itemsOutcome emailOutcome : CallOutcome)
    (st : SysState) : SysState × CheckoutResult :=
  match insertOutcome with
  | CallOutcome.thrown => (st, CheckoutResult.errorMsg "Something went wrong.")
  | CallOutcome.errReported => (st, CheckoutResult.errorMsg "Failed to place order.")
  | CallOutcome.ok =>
    let st1 := { st with orders := st.orders ++ [mkNewOrder draft nowMs newId newToken] }
    let itemsPayload : List OrderItem := cart.map (fun item =>
      { order_id := newId, product_name := item.name,
        price := item.price, quantity := item.quantity })
    match itemsOutcome with
    | CallOutcome.thrown => (st1, CheckoutResult.errorMsg "Something went wrong.")
    | CallOutcome.errReported => (st1, CheckoutResult.errorMsg "Failed to save order items.")
    | CallOutcome.ok =>
      let st2 := { st1 with orderItems := st1.orderItems ++ itemsPayload }
      match draft.paymentMethod, emailOutcome with
      | PaymentMethod.cash, _ =>
        ({ st2 with emailsSent := st2.emailsSent + 1 }, CheckoutResult.placedCash)
      | PaymentMethod.online, _ =>
        (st2, CheckoutResult.navigatedToPayment newToken)

/-- The only transitions the spec allows for `payment_status`: stay put, or
move from `pending` to `paid`.  It rules out any path back to `pending`. -/
def statusLe (a b : PaymentStatus) : Prop :=
  a = b ∨ (a = PaymentStatus.pending ∧ b = PaymentStatus.paid)

/-- Pointwise `statusLe` between the rows of the store before and after an
operation (rows are kept in place by every supabase update we model). -/
def statusForall (old : List Order) (upd : List Order) : Prop :=
  List.Forall₂ (fun o o2 => statusLe o.payment_status o2.payment_status) old upd

/-- A valid screenshot selection, used as concrete test input. -/
def proofFile : FileMeta := { name := "shot.png", mime := "image/png", size := 2048 }

/-- A plain-text file, used as concrete invalid input. -/
def textFile : FileMeta := { name := "note.txt", mime := "text/plain", size := 100 }

/-- A pending online order inside its payment window (deadline 300000 ms). -/
def pendingOrder : Order :=
  { id := 1, order_token := "TOKA", name := "A", email := "a@x.com",
    phone := "1", address := "addr",
    payment_method := PaymentMethod.online,
    payment_status := PaymentStatus.pending,
    payment_expires_at := 300000,
    payment_proof_url := none, payment_proof_submitted_at := none,
    order_confirmed := false, confirmed_at := none }

/-- An order already transitioned to `paid` by an earlier submission at
time 500, still inside its payment window. -/
def paidOrder : Order :=
  { id := 2, order_token := "TOKB", name := "B", email := "b@x.com",
    phone := "2", address := "addr2",
    payment_method := PaymentMethod.online,
    payment_status := PaymentStatus.paid,
    payment_expires_at := 300000,
    payment_proof_url := some "public/payment-proofs/TOKB_500.png",
    payment_proof_submitted_at := some 500,
    order_confirmed := false, confirmed_at := none }

/-- A still-pending order whose deadline (1000 ms) has passed. -/
def expiredPendingOrder : Order :=
  { id := 3, order_token := "TOKC", name := "C", email := "c@x.com",
    phone := "3", address := "addr3",
    payment_method := PaymentMethod.online,
    payment_status := PaymentStatus.pending,
    payment_expires_at := 1000,
    payment_proof_url := none, payment_proof_submitted_at := none,
    order_confirmed := false, confirmed_at := none }

/-- A second still-pending order past its deadline (100 ms). -/
def expiredPendingOrderB : Order :=
  { id := 4, order_token := "TOKE", name := "E", email := "e@x.com",
    phone := "4", address := "addr4",
    payment_method := PaymentMethod.online,
    payment_status := PaymentStatus.pending,
    payment_expires_at := 100,
    payment_proof_url := none, payment_proof_submitted_at := none,
    order_confirmed := false, confirmed_at := none }

/-- A cash checkout draft. -/
def cashDraft : Draft :=
  { name := "A", email := "a@x.com", phone := "1", address := "addr",
    paymentMethod := PaymentMethod.cash }

/-- Store holding only the fresh pending order. -/
def st0 : SysState :=
  { orders := [pendingOrder], blobs := [], orderItems := [], emailsSent := 0 }

/-- Store holding the already-paid order, its blob, and one past dispatch. -/
def stPaid : SysState :=
  { orders := [paidOrder], blobs := ["payment-proofs/TOKB_500.png"],
    orderItems := [], emailsSent := 1 }

/-- Store holding the expired pending order. -/
def stExp : SysState :=
  { orders := [expiredPendingOrder], blobs := [], orderItems := [], emailsSent := 0 }

/-- Store holding the second expired pending order. -/
def stExpB : SysState :=
  { orders := [expiredPendingOrderB], blobs := [], orderItems := [], emailsSent := 0 }

/-- The empty store. -/
def stEmpty : SysState :=
  { orders := [], blobs := [], orderItems := [], emailsSent := 0 }

/-- A proof submission against the already-paid order, every call
succeeding: the scenario of a second concurrent `submitProof` whose rival
has already won. -/
def c1run : SysState × UploadResult :=
  uploadProof (some proofFile) (some paidOrder) 2000
    CallOutcome.ok CallOutcome.ok CallOutcome.ok stPaid

/-- First of two proof submissions for the same pending order. -/
def c2run1 : SysState × UploadResult :=
  uploadProof (some proofFile) (some pendingOrder) 60000
    CallOutcome.ok CallOutcome.ok CallOutcome.ok st0

/-- Second proof submission, replayed on the state the first produced. -/
def c2run2 : SysState × UploadResult :=
  uploadProof (some proofFile) (some pendingOrder) 61000
    CallOutcome.ok CallOutcome.ok CallOutcome.ok c2run1.1

/-- First proof submission for the write-once check. -/
def c3run1 : SysState × UploadResult :=
  uploadProof (some proofFile) (some pendingOrder) 100000
    CallOutcome.ok CallOutcome.ok CallOutcome.ok st0

/-- Second proof submission for the write-once check. -/
def c3run2 : SysState × UploadResult :=
  uploadProof (some proofFile) (some pendingOrder) 200000
    CallOutcome.ok CallOutcome.ok CallOutcome.ok c3run1.1

/-- A proof submission at time 5000, long past the order deadline 1000. -/
def c4run : SysState × UploadResult :=
  uploadProof (some proofFile) (some expiredPendingOrder) 5000
    CallOutcome.ok CallOutcome.ok CallOutcome.ok stExp

/-- A proof submission at time 999000 against the order whose deadline was
100 ms. -/
def c6run : SysState × UploadResult :=
  uploadProof (some proofFile) (some expiredPendingOrderB) 999000
    CallOutcome.ok CallOutcome.ok CallOutcome.ok stExpB

/-- A proof submission whose storage upload and row update succeed but
whose notification call rejects. -/
def c8run : SysState × UploadResult :=
  uploadProof (some proofFile) (some pendingOrder) 90000
    CallOutcome.ok CallOutcome.ok CallOutcome.thrown st0

/-- A proof submission whose storage upload resolves with an error object
in the result while the row update succeeds. -/
def c10run : SysState × UploadResult :=
  uploadProof (some proofFile) (some pendingOrder) 42000
    CallOutcome.errReported CallOutcome.ok CallOutcome.ok st0

/-- Every store is `statusForall`-related to itself. -/
theorem statusForall_refl (l : List Order) : statusForall l l := by
  induction l with
  | nil => exact List.Forall₂.nil
  | cons a t ih => exact List.Forall₂.cons (Or.inl rfl) ih

/-- An update by `id` whose mutation respects `statusLe` yields a store
`statusForall`-related to the original. -/
theorem statusForall_updateById (l : List Order) (i : Nat) (f : Order → Order)
    (h : ∀ o, statusLe o.payment_status (f o).payment_status) :
    statusForall l (updateById l i f) := by
  induction l with
  | nil => exact List.Forall₂.nil
  | cons a t ih =>
    have hcons : updateById (a :: t) i f
        = (if a.id = i then f a else a) :: updateById t i f := rfl
    rw [hcons]
    refine List.Forall₂.cons ?_ ih
    by_cases ha : a.id = i
    · rw [if_pos ha]; exact h a
    · rw [if_neg ha]; exact Or.inl rfl

/-- The mutation of the active `uploadProof` only ever raises the status to
`paid`. -/
theorem statusLe_paidMutation (url : String) (nowMs : Nat) (o : Order) :
    statusLe o.payment_status (paidMutation url nowMs o).payment_status := by
  cases h : o.payment_status with
  | pending => exact Or.inr ⟨rfl, rfl⟩
  | paid => exact Or.inl rfl

/-- The mutation of the superseded `handleUploadProof` leaves the status
unchanged. -/
theorem statusLe_confirmMutation (url : String) (nowMs : Nat) (o : Order) :
    statusLe o.payment_status (confirmMutation url nowMs o).payment_status :=
  Or.inl rfl

/-- Claim C1 (code bug): the spec requires the proof-submission row write to
be conditional on `payment_status = pending`, with the losing concurrent
caller observing `AlreadyApplied`.  The source updates the row filtered only
by `id`: evaluated against a store whose order is already `paid`, the call
still succeeds, overwrites both proof fields, and invokes the notification
function a second time. -/
theorem c1_update_not_conditional_on_pending :
    paidOrder.payment_status = PaymentStatus.paid ∧
    c1run.2 = UploadResult.success ∧
    (findByToken c1run.1.orders "TOKB").map (fun o => o.payment_proof_url)
      = some (some "public/payment-proofs/TOKB_2000.png") ∧
    (findByToken c1run.1.orders "TOKB").map (fun o => o.payment_proof_submitted_at)
      = some (some 2000) ∧
    c1run.1.emailsSent = 2 := by decide

/-- Claim C2 (code bug): the spec requires at most one notification per
online order, fired only when the conditional update reports `Updated`.
The source invokes the email function on every successful pass of
`uploadProof`: two submissions on the same pending order dispatch twice. -/
theorem c2_second_submission_dispatches_again :
    pendingOrder.payment_method = PaymentMethod.online ∧
    c2run1.2 = UploadResult.success ∧
    c2run2.2 = UploadResult.success ∧
    st0.emailsSent = 0 ∧
    c2run1.1.emailsSent = 1 ∧
    c2run2.1.emailsSent = 2 := by decide

/-- Claim C3 (code bug): the spec declares the proof field pair write-once
and the second submission to leave `payment_proof_url` unchanged.  The
source overwrites both fields on every successful pass: the second
submission replaces the URL and the timestamp. -/
theorem c3_proof_fields_overwritten_on_resubmission :
    (findByToken c3run1.1.orders "TOKA").map (fun o => o.payment_proof_url)
      = some (some "public/payment-proofs/TOKA_100000.png") ∧
    (findByToken c3run2.1.orders "TOKA").map (fun o => o.payment_proof_url)
      = some (some "public/payment-proofs/TOKA_200000.png") ∧
    (findByToken c3run2.1.orders "TOKA").map (fun o => o.payment_proof_submitted_at)
      = some (some 200000) ∧
    c3run2.2 = UploadResult.success := by decide

/-- Claim C4, counterexample: a submission at time 5000 against an order
whose deadline was 1000 is accepted, transitions the order to `paid` and
dispatches the notification, contradicting the required `Expired`
rejection. -/
theorem c4_counterexample_late_submission_accepted :
    expiredPendingOrder.payment_expires_at < 5000 ∧
    c4run.2 = UploadResult.success ∧
    (findByToken c4run.1.orders "TOKC").map (fun o => o.payment_status)
      = some PaymentStatus.paid ∧
    c4run.1.emailsSent = 1 := by decide

/-- Claim C4, amended: the server-authoritative expiry check exists only on
the resolve path (`fetchOrder` rejects any lookup strictly past the
deadline), while `uploadProof` performs no expiry re-check: a submission at
any time strictly after `payment_expires_at`, with all calls succeeding,
returns success and still applies the paid mutation to the row. -/
theorem c4_amended_expiry_checked_only_at_resolve :
    (∀ (t : String) (store : List Order) (now : Nat) (o : Order),
       findByToken store t = some o → o.payment_expires_at < now →
       fetchOrder (some t) store now = ResolveResult.Expired) ∧
    (∀ (file : FileMeta) (ord : Order) (nowMs : Nat) (st : SysState),
       ord.payment_expires_at < nowMs →
       (uploadProof (some file) (some ord) nowMs
           CallOutcome.ok CallOutcome.ok CallOutcome.ok st).2
         = UploadResult.success ∧
       (uploadProof (some file) (some ord) nowMs
           CallOutcome.ok CallOutcome.ok CallOutcome.ok st).1.orders
         = updateById st.orders ord.id
             (paidMutation (publicUrl (proofPath ord nowMs file)) nowMs)) := by
  constructor
  · intro t store now o hfind hexp
    simp [fetchOrder, hfind, hexp]
  · intro file ord nowMs st _
    constructor
    · rfl
    · rfl

/-- Witness for the amended claim C4 at a concrete expired order. -/
theorem c4_amended_witness :
    (uploadProof (some proofFile) (some expiredPendingOrder) 7000
        CallOutcome.ok CallOutcome.ok CallOutcome.ok stExp).2
      = UploadResult.success ∧
    (uploadProof (some proofFile) (some expiredPendingOrder) 7000
        CallOutcome.ok CallOutcome.ok CallOutcome.ok stExp).1.orders
      = updateById stExp.orders expiredPendingOrder.id
          (paidMutation (publicUrl (proofPath expiredPendingOrder 7000 proofFile)) 7000) :=
  c4_amended_expiry_checked_only_at_resolve.2 proofFile expiredPendingOrder 7000 stExp
    (by decide)

/-- Claim C5: `fetchOrder` renders the expired screen exactly when the
token input is absent, the lookup finds no row, or the current time is
strictly past `payment_expires_at` (whatever the stored status); in every
other case it renders the fetched row. -/
theorem c5_resolve_expired_iff (tokenInput : Option String) (store : List Order)
    (now : Nat) :
    (fetchOrder tokenInput store now = ResolveResult.Expired ↔
      tokenInput = none ∨
      ∃ t, tokenInput = some t ∧
        (findByToken store t = none ∨
         ∃ o, findByToken store t = some o ∧ o.payment_expires_at < now)) ∧
    (∀ t o, tokenInput = some t → findByToken store t = some o →
      ¬ o.payment_expires_at < now →
      fetchOrder tokenInput store now = ResolveResult.SessionView o) := by
  constructor
  · cases tokenInput with
    | none => simp [fetchOrder]
    | some t =>
      cases hfind : findByToken store t with
      | none => simp [fetchOrder, hfind]
      | some o =>
        by_cases hexp : o.payment_expires_at < now
        · simp [fetchOrder, hfind, hexp]
        · simp [fetchOrder, hfind, hexp]
  · intro t o ht hfind hexp
    subst ht
    simp [fetchOrder, hfind, hexp]

/-- Witness for claim C5: a found, unexpired order resolves to its view. -/
theorem c5_resolve_witness :
    fetchOrder (some "TOKA") [pendingOrder] 1000
      = ResolveResult.SessionView pendingOrder :=
  (c5_resolve_expired_iff (some "TOKA") [pendingOrder] 1000).2 "TOKA" pendingOrder
    rfl (by decide) (by decide)

/-- Claim C6, counterexample: an order that passed its deadline (100 ms)
while still `pending` is nevertheless transitioned to `paid` by a later
submission at 999000 ms, refuting the expired-is-terminal conjunct. -/
theorem c6_counterexample_expired_order_paid :
    expiredPendingOrderB.payment_status = PaymentStatus.pending ∧
    expiredPendingOrderB.payment_expires_at < 999000 ∧
    (findByToken c6run.1.orders "TOKE").map (fun o => o.payment_status)
      = some PaymentStatus.paid := by decide

/-- Claim C6, amended: `payment_status` only ever moves from `pending` to
`paid` and `paid` is terminal with no path back to `pending` — every
mutating operation (`uploadProof`, `handleUploadProof`, `handleSubmit`)
maps each existing row to one related by `statusLe`, and a created order
starts `pending` (the resolve path reads without mutating by its type).
However an order past its deadline while pending can still move to `paid`,
because the submission path performs no expiry re-check. -/
theorem c6_amended_status_monotone
    (sf : Option FileMeta) (ord : Option Order) (nowMs : Nat)
    (uo upo eo : CallOutcome) (st : SysState)
    (draft : Draft) (cart : List CartItem) (nowMs2 newId : Nat)
    (newToken : String) (io ito eo2 : CallOutcome) :
    statusForall st.orders (uploadProof sf ord nowMs uo upo eo st).1.orders ∧
    statusForall st.orders (handleUploadProof sf ord nowMs uo upo st).1.orders ∧
    ((handleSubmit draft cart nowMs2 newId newToken io ito eo2 st).1.orders
        = st.orders ∨
      (handleSubmit draft cart nowMs2 newId newToken io ito eo2 st).1.orders
          = st.orders ++ [mkNewOrder draft nowMs2 newId newToken] ∧
        (mkNewOrder draft nowMs2 newId newToken).payment_status
          = PaymentStatus.pending) := by
  refine ⟨?_, ?_, ?_⟩
  · cases sf with
    | none => exact statusForall_refl st.orders
    | some file =>
      cases ord with
      | none => exact statusForall_refl st.orders
      | some o =>
        cases uo <;> cases upo <;> cases eo <;>
          first
            | exact statusForall_updateById st.orders o.id _
                (fun o2 => statusLe_paidMutation _ _ o2)
            | exact statusForall_refl st.orders
  · cases sf with
    | none => exact statusForall_refl st.orders
    | some file =>
      cases ord with
      | none => exact statusForall_refl st.orders
      | some o =>
        cases uo <;> cases upo <;>
          first
            | exact statusForall_updateById st.orders o.id _
                (fun o2 => statusLe_confirmMutation _ _ o2)
            | exact statusForall_refl st.orders
  · obtain ⟨dn, de, dp, da, pm⟩ := draft
    cases io <;> cases ito <;> cases pm <;> cases eo2 <;>
      first
        | exact Or.inl rfl
        | exact Or.inr ⟨rfl, rfl⟩

/-- Witness for the amended claim C6 at a concrete submission. -/
theorem c6_amended_witness :
    statusForall st0.orders
      (uploadProof (some proofFile) (some pendingOrder) 1000
          CallOutcome.ok CallOutcome.ok CallOutcome.ok st0).1.orders :=
  (c6_amended_status_monotone (some proofFile) (some pendingOrder) 1000
      CallOutcome.ok CallOutcome.ok CallOutcome.ok st0
      cashDraft [] 0 9 "TOKZ" CallOutcome.ok CallOutcome.ok CallOutcome.ok).1

/-- Claim C7: on a fully successful creation, the cash path invokes the
notification function exactly once and shows the terminal placed modal
(whatever the dispatch outcome), while the online path navigates to the
payment page carrying the order token and dispatches nothing. -/
theorem c7_createOrder_dispatch_by_method
    (draft : Draft) (cart : List CartItem) (nowMs newId : Nat)
    (newToken : String) (emailOutcome : CallOutcome) (st : SysState) :
    (draft.paymentMethod = PaymentMethod.cash →
      (handleSubmit draft cart nowMs newId newToken
          CallOutcome.ok CallOutcome.ok emailOutcome st).2
        = CheckoutResult.placedCash ∧
      (handleSubmit draft cart nowMs newId newToken
          CallOutcome.ok CallOutcome.ok emailOutcome st).1.emailsSent
        = st.emailsSent + 1) ∧
    (draft.paymentMethod = PaymentMethod.online →
      (handleSubmit draft cart nowMs newId newToken
          CallOutcome.ok CallOutcome.ok emailOutcome st).2
        = CheckoutResult.navigatedToPayment newToken ∧
      (handleSubmit draft cart nowMs newId newToken
          CallOutcome.ok CallOutcome.ok emailOutcome st).1.emailsSent
        = st.emailsSent) := by
  obtain ⟨dn, de, dp, da, pm⟩ := draft
  constructor
  · intro h
    cases pm with
    | cash => cases emailOutcome <;> exact ⟨rfl, rfl⟩
    | online => exact nomatch h
  · intro h
    cases pm with
    | cash => exact nomatch h
    | online => cases emailOutcome <;> exact ⟨rfl, rfl⟩

/-- Witness for claim C7: a concrete cash order places and dispatches once
even though the dispatch itself rejects. -/
theorem c7_witness :
    (handleSubmit cashDraft [] 0 1 "TOKD"
        CallOutcome.ok CallOutcome.ok CallOutcome.thrown stEmpty).2
      = CheckoutResult.placedCash ∧
    (handleSubmit cashDraft [] 0 1 "TOKD"
        CallOutcome.ok CallOutcome.ok CallOutcome.thrown stEmpty).1.emailsSent
      = stEmpty.emailsSent + 1 :=
  (c7_createOrder_dispatch_by_method cashDraft [] 0 1 "TOKD"
      CallOutcome.thrown stEmpty).1 rfl

/-- Claim C8, counterexample: in `uploadProof` the notification call is
awaited inside the try block, so a rejected dispatch lands in the catch
branch and the buyer sees the failure message — even though the row
transition had already committed.  This refutes the never-propagated half
of the claim for the submission path. -/
theorem c8_counterexample_dispatch_failure_surfaced :
    c8run.2 = UploadResult.errorShown ∧
    (findByToken c8run.1.orders "TOKA").map (fun o => o.payment_status)
      = some PaymentStatus.paid := by decide

/-- Claim C8, amended: a dispatch failure never undoes a committed
transition, and on the cash creation path it is fully swallowed (the placed
result is shown whatever the dispatch outcome); but on the submission path
a dispatch call that rejects makes the operation report failure to the
buyer, the committed row mutation staying in place. -/
theorem c8_amended_dispatch_failure_no_rollback :
    (∀ (draft : Draft) (cart : List CartItem) (nowMs newId : Nat)
        (newToken : String) (eo : CallOutcome) (st : SysState),
        draft.paymentMethod = PaymentMethod.cash →
        (handleSubmit draft cart nowMs newId newToken
            CallOutcome.ok CallOutcome.ok eo st).2
          = CheckoutResult.placedCash) ∧
    (∀ (file : FileMeta) (ord : Order) (nowMs : Nat) (st : SysState),
        (uploadProof (some file) (some ord) nowMs
            CallOutcome.ok CallOutcome.ok CallOutcome.thrown st).2
          = UploadResult.errorShown ∧
        (uploadProof (some file) (some ord) nowMs
            CallOutcome.ok CallOutcome.ok CallOutcome.thrown st).1.orders
          = updateById st.orders ord.id
              (paidMutation (publicUrl (proofPath ord nowMs file)) nowMs)) := by
  constructor
  · intro draft cart nowMs newId newToken eo st h
    obtain ⟨dn, de, dp, da, pm⟩ := draft
    cases pm with
    | cash => cases eo <;> rfl
    | online => exact nomatch h
  · intro file ord nowMs st
    exact ⟨rfl, rfl⟩

/-- Witness for the amended claim C8 at a concrete cash order whose
dispatch rejects. -/
theorem c8_amended_witness :
    (handleSubmit cashDraft [] 5 7 "TOKF" CallOutcome.ok CallOutcome.ok
        CallOutcome.thrown stEmpty).2 = CheckoutResult.placedCash :=
  c8_amended_dispatch_failure_no_rollback.1 cashDraft [] 5 7 "TOKF"
    CallOutcome.thrown stEmpty rfl

/-- Claim C9: a file whose MIME type does not start with image, or whose
size exceeds 5 MiB, is rejected by `onFileChange` with an error message,
never becomes the selected file, and the storage upload is never invoked
with it — starting from an empty selection the upload handler is a no-op
that leaves the whole external state unchanged. -/
theorem c9_invalid_file_rejected (file : FileMeta)
    (hbad : strStarts file.mime "image/" = false ∨ 5 * 1024 * 1024 < file.size) :
    (∃ msg, onFileChange file = FileCheck.InvalidFile msg) ∧
    (∀ prev, selectAfterChange prev file = prev) ∧
    (∀ (ord : Option Order) (nowMs : Nat) (uo upo eo : CallOutcome)
        (st : SysState),
        uploadProof (selectAfterChange none file) ord nowMs uo upo eo st
          = (st, UploadResult.noop)) := by
  have hmsg : ∃ msg, onFileChange file = FileCheck.InvalidFile msg := by
    rcases hbad with h | h
    · exact ⟨"Only image files allowed", by simp [onFileChange, h]⟩
    · cases hm : strStarts file.mime "image/" with
      | false => exact ⟨"Only image files allowed", by simp [onFileChange, hm]⟩
      | true => exact ⟨"Max file size is 5MB", by simp [onFileChange, hm, gt_iff_lt, h]⟩
  obtain ⟨msg, hmsg2⟩ := hmsg
  have hsel : ∀ prev, selectAfterChange prev file = prev := by
    intro prev
    simp [selectAfterChange, hmsg2]
  refine ⟨⟨msg, hmsg2⟩, hsel, ?_⟩
  intro ord nowMs uo upo eo st
  rw [hsel none]
  rfl

/-- Witness for claim C9: the text file is rejected and the upload handler
does nothing with it. -/
theorem c9_witness :
    onFileChange textFile = FileCheck.InvalidFile "Only image files allowed" ∧
    selectAfterChange (some proofFile) textFile = some proofFile ∧
    uploadProof (selectAfterChange none textFile) (some pendingOrder) 1000
        CallOutcome.ok CallOutcome.ok CallOutcome.ok st0
      = (st0, UploadResult.noop) := by
  have h := c9_invalid_file_rejected textFile (Or.inl (by decide))
  exact ⟨by decide, h.2.1 (some proofFile),
    h.2.2 (some pendingOrder) 1000 CallOutcome.ok CallOutcome.ok CallOutcome.ok st0⟩

/-- Claim C10, counterexample: in the active `uploadProof` the storage
upload result is discarded, so an upload that resolves with an error object
does not abort — the row update is still issued (the URL now points at a
never-stored object) and the success modal is shown, while nothing was
added to the bucket. -/
theorem c10_counterexample_reported_upload_error_ignored :
    c10run.1.blobs = st0.blobs ∧
    c10run.1.orders ≠ st0.orders ∧
    (findByToken c10run.1.orders "TOKA").map (fun o => o.payment_proof_url)
      = some (some "public/payment-proofs/TOKA_42000.png") ∧
    c10run.2 = UploadResult.success := by decide

/-- Claim C10, amended: the blob upload is performed before the row
mutation in both handler variants.  In the superseded `handleUploadProof`
any upload error — reported or thrown — aborts with the store completely
unchanged; in the active `uploadProof` only a thrown upload aborts
unchanged, while a reported storage error is ignored and the row update is
issued anyway. -/
theorem c10_amended_upload_abort_semantics :
    (∀ (file : FileMeta) (ord : Order) (nowMs : Nat) (upo : CallOutcome)
        (st : SysState),
        handleUploadProof (some file) (some ord) nowMs
            CallOutcome.errReported upo st
          = (st, UploadResult.errorShown) ∧
        handleUploadProof (some file) (some ord) nowMs
            CallOutcome.thrown upo st
          = (st, UploadResult.errorShown)) ∧
    (∀ (file : FileMeta) (ord : Order) (nowMs : Nat) (upo eo : CallOutcome)
        (st : SysState),
        uploadProof (some file) (some ord) nowMs
            CallOutcome.thrown upo eo st
          = (st, UploadResult.errorShown)) ∧
    (∀ (file : FileMeta) (ord : Order) (nowMs : Nat) (eo : CallOutcome)
        (st : SysState),
        (uploadProof (some file) (some ord) nowMs
            CallOutcome.errReported CallOutcome.ok eo st).1.orders
          = updateById st.orders ord.id
              (paidMutation (publicUrl (proofPath ord nowMs file)) nowMs)) := by
  refine ⟨?_, ?_, ?_⟩
  · intro file ord nowMs upo st
    exact ⟨rfl, rfl⟩
  · intro file ord nowMs upo eo st
    rfl
  · intro file ord nowMs eo st
    cases eo <;> rfl

/-- Witness for the amended claim C10 at a concrete reported upload
error. -/
theorem c10_amended_witness :
    handleUploadProof (some proofFile) (some pendingOrder) 2500
        CallOutcome.errReported CallOutcome.ok st0
      = (st0, UploadResult.errorShown) :=
  (c10_amended_upload_abort_semantics.1 proofFile pendingOrder 2500
      CallOutcome.ok st0).1

end Komugy
